import Mathlib

/-!
Verification of the food-donation-analysis repository.

Shallow embedding of the four SQLite tables (database_setup.py), the
Bulk Loader clean stage (data_import.py, clean_data), the standalone
consistency check (data_check.py), and the Browse & Filter query builder
plus helper functions of the dashboard (app.py).

Conventions of the embedding:
- a calendar date is a day number (Nat); a date-time is a number of
  seconds (Nat), so the day of a date-time `now` is `now / 86400`;
- a nullable SQL column is an `Option`; `INTEGER PRIMARY KEY` columns are
  non-null (SQLite aliases them to the rowid), so they are plain `Int`;
- SQL expressions over nullable values use three-valued logic
  (`Option Bool`, `none` = SQL NULL); a WHERE / DELETE predicate fires
  only when the expression evaluates to TRUE (`some true`);
- `ORDER BY` is modelled by the stable `List.mergeSort`.
-/

namespace FoodWastage

/-- providers table (database_setup.py): Provider_ID INTEGER PRIMARY KEY,
the remaining TEXT columns are nullable. `Type` is a reserved word in
Lean, so the column is called `Type'`. -/
structure Provider where
  Provider_ID : Int
  Name : Option String
  Type' : Option String
  Address : Option String
  City : Option String
  Contact : Option String
deriving DecidableEq

/-- receivers table (database_setup.py). -/
structure Receiver where
  Receiver_ID : Int
  Name : Option String
  Type' : Option String
  City : Option String
  Contact : Option String
deriving DecidableEq

/-- food_listings table (database_setup.py). `Expiry_Date` is stored as
text and always consumed through a date parse (`date(Expiry_Date)` /
`pd.to_datetime`); it is embedded as the parsed day number. -/
structure FoodListing where
  Food_ID : Int
  Food_Name : Option String
  Quantity : Int
  Expiry_Date : Nat
  Provider_ID : Option Int
  Provider_Type : Option String
  Location : Option String
  Food_Type : Option String
  Meal_Type : Option String
deriving DecidableEq

/-- claims table (database_setup.py): Food_ID and Receiver_ID are
nullable INTEGER columns with unenforced foreign keys. -/
structure Claim where
  Claim_ID : Int
  Food_ID : Option Int
  Receiver_ID : Option Int
  Status : Option String
  Timestamp : Option String
deriving DecidableEq

/-- The whole store: the four tables of food_wastage.db. -/
structure DB where
  providers : List Provider
  receivers : List Receiver
  food_listings : List FoodListing
  claims : List Claim
deriving DecidableEq

/-! ## SQL three-valued logic -/

/-- SQL AND over nullable booleans (`none` = NULL). -/
def sqlAnd : Option Bool → Option Bool → Option Bool
  | some false, _ => some false
  | _, some false => some false
  | some true, some true => some true
  | _, _ => none

/-- SQL OR over nullable booleans (`none` = NULL). -/
def sqlOr : Option Bool → Option Bool → Option Bool
  | some true, _ => some true
  | _, some true => some true
  | some false, some false => some false
  | _, _ => none

/-- SQL `x IN (v1, ..., vn)` where the right-hand list contains no NULLs
(true of every use in this program: bound UI parameters, or values of a
PRIMARY KEY column). An empty right-hand side yields FALSE even for a
NULL left operand; a NULL left operand against a non-empty list yields
NULL. -/
def sqlIn {α : Type} [DecidableEq α] : Option α → List α → Option Bool
  | _, [] => some false
  | none, _ :: _ => none
  | some x, v :: vs => some (decide (x ∈ v :: vs))

/-- SQL `x NOT IN (...)`: the negation of `sqlIn` (NULL stays NULL). -/
def sqlNotIn {α : Type} [DecidableEq α] (x : Option α) (l : List α) : Option Bool :=
  (sqlIn x l).map (fun b => !b)

/-! ## Bulk Loader clean stage (data_import.py, clean_data) -/

/-- `UPDATE food_listings SET Quantity = 1 WHERE Quantity < 0`, applied
to one row. -/
def fixQuantity (l : FoodListing) : FoodListing :=
  if l.Quantity < 0 then { l with Quantity := 1 } else l

/-- The food_listings table after the first two statements of
`clean_data`: `DELETE FROM food_listings WHERE date(Expiry_Date) <
date(today)` (strict comparison of parsed dates) followed by the
negative-quantity clamp. -/
def cleanedListings (today : Nat) (ls : List FoodListing) : List FoodListing :=
  (ls.filter (fun l => !decide (l.Expiry_Date < today))).map fixQuantity

/-- The WHERE predicate of `DELETE FROM claims WHERE Food_ID NOT IN
(SELECT Food_ID FROM food_listings) OR Receiver_ID NOT IN (SELECT
Receiver_ID FROM receivers)`: the row is deleted iff the three-valued
expression is TRUE. -/
def invalidClaim (ls : List FoodListing) (rs : List Receiver) (c : Claim) : Bool :=
  sqlOr (sqlNotIn c.Food_ID (ls.map (fun l => l.Food_ID)))
        (sqlNotIn c.Receiver_ID (rs.map (fun r => r.Receiver_ID))) == some true

/-- `clean_data` (data_import.py): remove expired food, clamp negative
quantities, then remove invalid claims against the already-cleaned
food_listings table. `today` is the day number of
`datetime.today().strftime(%Y-%m-%d)`. -/
def clean_data (today : Nat) (db : DB) : DB :=
  { db with
      food_listings := cleanedListings today db.food_listings,
      claims := db.claims.filter
        (fun c => !invalidClaim (cleanedListings today db.food_listings) db.receivers c) }

/-! ## Standalone consistency check (data_check.py) -/

def secondsPerDay : Nat := 86400

/-- The deletion test of `delete_expired_food` (data_check.py):
`pd.to_datetime(Expiry_Date)` parses to midnight of the expiry day, and
the row is selected for deletion iff that instant is strictly before
`datetime.now()` (`now`, in seconds). -/
def expiredByCheck (now : Nat) (l : FoodListing) : Bool :=
  decide (l.Expiry_Date * secondsPerDay < now)

/-- `delete_expired_food` (data_check.py) restricted to its effect on the
food_listings table: rows whose parsed expiry instant is strictly before
`now` are deleted (Food_ID is the primary key, so the
collect-ids-then-DELETE-IN implementation removes exactly those rows). -/
def delete_expired_food (now : Nat) (ls : List FoodListing) : List FoodListing :=
  ls.filter (fun l => !expiredByCheck now l)

/-! ## App helpers (app.py, run_query / run_execute)

The helpers wrap every query in a try/except. The outcome of attempting
the statement is embedded as an `Except`: `.ok` is normal completion,
`.error` is any raised exception, caught at this boundary. -/

/-- `run_query` (app.py): returns the DataFrame on success and an empty
DataFrame on any failure. -/
def run_query {α : Type} (attempt : Except String (List α)) : List α :=
  match attempt with
  | .ok df => df
  | .error _ => []

/-- `run_execute` (app.py): returns `cur.lastrowid` on success and
`None` on any failure. -/
def run_execute (attempt : Except String Int) : Option Int :=
  match attempt with
  | .ok rowid => some rowid
  | .error _ => none

/-! ## Record Editor UPDATE / DELETE (app.py, CRUD page) -/

/-- `UPDATE {entity} SET {field} = ? WHERE {key_col} = ?`: `keyOf`
projects the table's primary-key column, `setField` performs the
single-field assignment on one row. -/
def updateByKey {α : Type} (keyOf : α → Int) (k : Int) (setField : α → α)
    (tbl : List α) : List α :=
  tbl.map (fun r => if keyOf r = k then setField r else r)

/-- `DELETE FROM {entity} WHERE {key_col} = ?`. -/
def deleteByKey {α : Type} (keyOf : α → Int) (k : Int) (tbl : List α) : List α :=
  tbl.filter (fun r => !decide (keyOf r = k))

/-! ## Query Builder (app.py, Browse & Filter page) -/

/-- One output row of `FROM food_listings l LEFT JOIN providers p ON
p.Provider_ID = l.Provider_ID`: the listing together with the matched
provider, `none` when the join found no match (provider columns NULL). -/
abbrev Row := FoodListing × Option Provider

/-- The LEFT JOIN: every listing paired with each matching provider, or
with `none` when no provider matches (a NULL `l.Provider_ID` matches
nothing). -/
def leftJoinProviders (ls : List FoodListing) (ps : List Provider) : List Row :=
  ls.flatMap (fun l =>
    let ms := ps.filter (fun p => l.Provider_ID == some p.Provider_ID)
    if ms.isEmpty then [(l, none)] else ms.map (fun p => (l, some p)))

/-- The dynamically built condition list of the Browse & Filter page:
one `IN` predicate per non-empty filter dimension, in source order
(Location, Provider name, Food_Type). -/
def conditions (fCity fProvider fFoodtype : List String) : List (Row → Option Bool) :=
  (if fCity.isEmpty then [] else [fun r => sqlIn r.1.Location fCity]) ++
  (if fProvider.isEmpty then [] else
    [fun r => sqlIn (r.2.bind (fun p => p.Name)) fProvider]) ++
  (if fFoodtype.isEmpty then [] else [fun r => sqlIn r.1.Food_Type fFoodtype])

/-- Evaluation of the WHERE clause `" AND ".join(conditions)`; with no
conditions the WHERE clause is omitted, i.e. every row passes. -/
def evalWhere (cs : List (Row → Option Bool)) (r : Row) : Option Bool :=
  cs.foldr (fun c acc => sqlAnd (c r) acc) (some true)

/-- The `ORDER BY date(l.Expiry_Date) ASC` comparison. -/
def rowLE (a b : Row) : Bool :=
  decide (a.1.Expiry_Date ≤ b.1.Expiry_Date)

/-- The Browse & Filter query: LEFT JOIN, dynamically built WHERE
(a row is returned iff the clause evaluates to TRUE), ORDER BY parsed
expiry date ascending. -/
def browseFilter (db : DB) (fCity fProvider fFoodtype : List String) : List Row :=
  ((leftJoinProviders db.food_listings db.providers).filter
    (fun r => evalWhere (conditions fCity fProvider fFoodtype) r == some true)).mergeSort rowLE

/-! ## SQL Insights query 7 (app.py): near-expiry report -/

/-- Query 7: `WHERE date(Expiry_Date) BETWEEN date(?) AND date(?, +3 day)
ORDER BY date(Expiry_Date)` with both parameters bound to today;
BETWEEN is inclusive at both ends. -/
def nearExpiryReport (today : Nat) (ls : List FoodListing) : List FoodListing :=
  (ls.filter (fun l => decide (today ≤ l.Expiry_Date) && decide (l.Expiry_Date ≤ today + 3))).mergeSort
    (fun a b => decide (a.Expiry_Date ≤ b.Expiry_Date))

/-! ## Concrete sample data (used by witnesses and counterexamples) -/

/-- A provider with ID 1. -/
def pShop : Provider := ⟨1, some "p", none, none, none, none⟩

/-- A receiver with ID 7. -/
def rNgo : Receiver := ⟨7, none, none, none, none⟩

/-- Listing 1: negative quantity, expires on day 9 (yesterday relative
to day 10). -/
def lYest : FoodListing := ⟨1, none, -5, 9, some 1, none, some "a", some "t", none⟩

/-- Listing 2: negative quantity, expires on day 11 (tomorrow relative
to day 10). -/
def lTom : FoodListing := ⟨2, none, -5, 11, some 1, none, some "b", some "t", none⟩

/-- Listing 3: zero quantity, expires on day 10 (today). -/
def lZero : FoodListing := ⟨3, none, 0, 10, some 2, none, some "a", none, none⟩

/-- A claim with NULL Food_ID and a valid Receiver_ID. -/
def cNullF : Claim := ⟨1, none, some 7, none, none⟩

/-- A claim whose Food_ID (99) exists in no listing. -/
def cDangling : Claim := ⟨2, some 99, some 7, none, none⟩

/-- A claim referencing listing 2 and receiver 7. -/
def cOk : Claim := ⟨3, some 2, some 7, none, none⟩

/-- A sample store exercising every cleaning rule at day 10. -/
def dbA : DB := ⟨[pShop], [rNgo], [lYest, lTom, lZero], [cNullF, cDangling, cOk]⟩

/-- A store with an empty food_listings table and a NULL-Food_ID claim. -/
def dbNoList : DB := ⟨[pShop], [rNgo], [], [cNullF]⟩

/-! ## Helper lemmas: SQL three-valued logic -/

theorem sqlAnd_eq_true (x y : Option Bool) :
    sqlAnd x y = some true ↔ (x = some true ∧ y = some true) := by
  cases x with
  | none => cases y with
    | none => simp [sqlAnd]
    | some c => cases c <;> simp [sqlAnd]
  | some b => cases y with
    | none => cases b <;> simp [sqlAnd]
    | some c => cases b <;> cases c <;> simp [sqlAnd]

theorem sqlOr_eq_true (x y : Option Bool) :
    sqlOr x y = some true ↔ (x = some true ∨ y = some true) := by
  cases x with
  | none => cases y with
    | none => simp [sqlOr]
    | some c => cases c <;> simp [sqlOr]
  | some b => cases y with
    | none => cases b <;> simp [sqlOr]
    | some c => cases b <;> cases c <;> simp [sqlOr]

theorem sqlIn_eq_true {α : Type} [DecidableEq α] (o : Option α) (l : List α) :
    sqlIn o l = some true ↔ ∃ v, o = some v ∧ v ∈ l := by
  cases o with
  | none => cases l <;> simp [sqlIn]
  | some x => cases l <;> simp [sqlIn]

theorem sqlNotIn_some {α : Type} [DecidableEq α] (x : α) (l : List α) :
    sqlNotIn (some x) l = some (!decide (x ∈ l)) := by
  cases l <;> simp [sqlNotIn, sqlIn]

theorem sqlNotIn_none {α : Type} [DecidableEq α] (l : List α) (h : l ≠ []) :
    sqlNotIn (none : Option α) l = none := by
  cases l with
  | nil => exact absurd rfl h
  | cons a as => simp [sqlNotIn, sqlIn]

/-! ## Helper lemmas: the clean stage -/

theorem fixQuantity_Expiry_Date (l : FoodListing) :
    (fixQuantity l).Expiry_Date = l.Expiry_Date := by
  unfold fixQuantity; split <;> rfl

theorem fixQuantity_Food_ID (l : FoodListing) :
    (fixQuantity l).Food_ID = l.Food_ID := by
  unfold fixQuantity; split <;> rfl

theorem fixQuantity_nonneg (l : FoodListing) : 0 ≤ (fixQuantity l).Quantity := by
  unfold fixQuantity
  split
  · simp
  · omega

theorem fixQuantity_of_nonneg {l : FoodListing} (h : 0 ≤ l.Quantity) :
    fixQuantity l = l := by
  unfold fixQuantity; split <;> first | omega | rfl

theorem mem_cleanedListings {today : Nat} {ls : List FoodListing} {m : FoodListing} :
    m ∈ cleanedListings today ls ↔
      ∃ l ∈ ls, ¬ l.Expiry_Date < today ∧ m = fixQuantity l := by
  simp only [cleanedListings, List.mem_map, List.mem_filter]
  constructor
  · rintro ⟨l, ⟨hl, hd⟩, rfl⟩
    exact ⟨l, hl, by simpa using hd, rfl⟩
  · rintro ⟨l, hl, hd, rfl⟩
    exact ⟨l, ⟨hl, by simpa using hd⟩, rfl⟩

theorem cleanedListings_expiry {today : Nat} {ls : List FoodListing} {m : FoodListing}
    (h : m ∈ cleanedListings today ls) : today ≤ m.Expiry_Date := by
  rcases mem_cleanedListings.mp h with ⟨l, _, hd, rfl⟩
  rw [fixQuantity_Expiry_Date]; omega

theorem cleanedListings_nonneg {today : Nat} {ls : List FoodListing} {m : FoodListing}
    (h : m ∈ cleanedListings today ls) : 0 ≤ m.Quantity := by
  rcases mem_cleanedListings.mp h with ⟨l, _, _, rfl⟩
  exact fixQuantity_nonneg l

theorem cleanedListings_idem (today : Nat) (ls : List FoodListing) :
    cleanedListings today (cleanedListings today ls) = cleanedListings today ls := by
  have h1 : (cleanedListings today ls).filter
      (fun l => !decide (l.Expiry_Date < today)) = cleanedListings today ls := by
    apply List.filter_eq_self.mpr
    intro a ha
    have := cleanedListings_expiry ha
    simp; omega
  have h2 : (cleanedListings today ls).map fixQuantity = cleanedListings today ls := by
    have hcongr : ∀ a ∈ cleanedListings today ls, fixQuantity a = id a :=
      fun a ha => fixQuantity_of_nonneg (cleanedListings_nonneg ha)
    rw [List.map_congr_left hcongr, List.map_id]
  rw [cleanedListings, h1, h2]

theorem invalidClaim_eq_true {ls : List FoodListing} {rs : List Receiver} {c : Claim} :
    invalidClaim ls rs c = true ↔
      (sqlNotIn c.Food_ID (ls.map (fun l => l.Food_ID)) = some true ∨
       sqlNotIn c.Receiver_ID (rs.map (fun r => r.Receiver_ID)) = some true) := by
  rw [invalidClaim, beq_iff_eq, sqlOr_eq_true]

/-- C3: running the Bulk Loader's Clean stage twice in succession on the
same day yields the same table state as running it once: the second run
deletes no further food_listings rows, changes no quantities, and deletes
no further claims rows. -/
theorem clean_stage_idempotent (today : Nat) (db : DB) :
    clean_data today (clean_data today db) = clean_data today db := by
  cases db with
  | mk ps rs ls cs =>
    simp only [clean_data, cleanedListings_idem]
    congr 1
    rw [List.filter_filter]
    apply List.filter_congr
    intro c _
    rw [Bool.and_self]

/-- C2 counterexample: after the full run (clear, import, clean) on the
store `dbA` at day 10, a listing with Quantity 0 survives un-clamped
(only strictly negative quantities are set to 1), and a claim with NULL
Food_ID survives the referential cleanup; so neither "Quantity >= 1" nor
"every remaining claim has a Food_ID present in food_listings" holds. -/
theorem bulk_guarantee_cex :
    (¬ ∀ l ∈ (clean_data 10 dbA).food_listings, 1 ≤ l.Quantity) ∧
    (¬ ∀ c ∈ (clean_data 10 dbA).claims,
        (∃ l ∈ (clean_data 10 dbA).food_listings, c.Food_ID = some l.Food_ID) ∧
        (∃ r ∈ (clean_data 10 dbA).receivers, c.Receiver_ID = some r.Receiver_ID)) := by
  decide

/-- C2 amended: after a full Bulk Loader run, every remaining
food_listing has an Expiry_Date not strictly before the run's date and a
non-negative Quantity (strictly negative quantities were clamped to 1; a
Quantity of exactly 0 survives unchanged), and every remaining claim
whose Food_ID is non-NULL has it present in food_listings, and whose
Receiver_ID is non-NULL has it present in receivers. -/
theorem bulk_guarantee_amended (today : Nat) (db : DB) :
    (∀ l ∈ (clean_data today db).food_listings,
        today ≤ l.Expiry_Date ∧ 0 ≤ l.Quantity) ∧
    (∀ c ∈ (clean_data today db).claims,
        (∀ fid, c.Food_ID = some fid →
          fid ∈ (clean_data today db).food_listings.map (fun l => l.Food_ID)) ∧
        (∀ rid, c.Receiver_ID = some rid →
          rid ∈ db.receivers.map (fun r => r.Receiver_ID))) := by
  constructor
  · intro l hl
    exact ⟨cleanedListings_expiry hl, cleanedListings_nonneg hl⟩
  · intro c hc
    have hkeep : invalidClaim (cleanedListings today db.food_listings) db.receivers c = false := by
      have := (List.mem_filter.mp hc).2
      simpa using this
    constructor
    · intro fid hfid
      by_contra habs
      have : invalidClaim (cleanedListings today db.food_listings) db.receivers c = true := by
        apply invalidClaim_eq_true.mpr
        left
        rw [hfid, sqlNotIn_some]
        have habs' : fid ∉ (cleanedListings today db.food_listings).map
            (fun l => l.Food_ID) := habs
        simp [habs']
      rw [hkeep] at this
      exact Bool.false_ne_true this
    · intro rid hrid
      by_contra habs
      have : invalidClaim (cleanedListings today db.food_listings) db.receivers c = true := by
        apply invalidClaim_eq_true.mpr
        right
        rw [hrid, sqlNotIn_some]
        simp [habs]
      rw [hkeep] at this
      exact Bool.false_ne_true this

/-- C2 amended, witness: the zero-quantity listing surviving the run on
`dbA` satisfies the amended guarantee. -/
theorem bulk_guarantee_amended_witness :
    10 ≤ lZero.Expiry_Date ∧ 0 ≤ lZero.Quantity :=
  (bulk_guarantee_amended 10 dbA).1 lZero (by decide)

/-- C4: a listing whose Expiry_Date equals the current date is not
deleted by Clean (strict less-than), and it is included in the
near-expiry report, whose window is [today, today+3] inclusive at both
ends. -/
theorem expiry_today_boundary (today : Nat) (db : DB) (l : FoodListing)
    (hl : l ∈ db.food_listings) (he : l.Expiry_Date = today) :
    fixQuantity l ∈ (clean_data today db).food_listings ∧
    l ∈ nearExpiryReport today db.food_listings ∧
    (∀ m, m ∈ nearExpiryReport today db.food_listings ↔
        m ∈ db.food_listings ∧ today ≤ m.Expiry_Date ∧ m.Expiry_Date ≤ today + 3) := by
  have hwin : ∀ m, m ∈ nearExpiryReport today db.food_listings ↔
      m ∈ db.food_listings ∧ today ≤ m.Expiry_Date ∧ m.Expiry_Date ≤ today + 3 := by
    intro m
    rw [nearExpiryReport, List.mem_mergeSort, List.mem_filter]
    simp
  refine ⟨?_, ?_, hwin⟩
  · exact mem_cleanedListings.mpr ⟨l, hl, by omega, rfl⟩
  · exact (hwin l).mpr ⟨hl, by omega, by omega⟩

/-- C4 witness: the day-10 listing `lZero` on the store `dbA` at day 10. -/
theorem expiry_today_boundary_witness :
    fixQuantity lZero ∈ (clean_data 10 dbA).food_listings ∧
    lZero ∈ nearExpiryReport 10 dbA.food_listings ∧
    (∀ m, m ∈ nearExpiryReport 10 dbA.food_listings ↔
        m ∈ dbA.food_listings ∧ 10 ≤ m.Expiry_Date ∧ m.Expiry_Date ≤ 10 + 3) :=
  expiry_today_boundary 10 dbA lZero (by decide) (by decide)

/-- C5: within Clean, expired-row removal runs before the
negative-quantity clamp: a listing with negative Quantity and an expired
date is deleted (no surviving row carries its Food_ID), while a listing
with negative Quantity and a future Expiry_Date is retained with its
Quantity set to exactly 1. -/
theorem clean_order_expired_before_clamp (today : Nat) (db : DB) (l : FoodListing)
    (hl : l ∈ db.food_listings) (hq : l.Quantity < 0) :
    (l.Expiry_Date < today →
      (∀ m ∈ db.food_listings, m.Food_ID = l.Food_ID → m = l) →
      ∀ m ∈ (clean_data today db).food_listings, m.Food_ID ≠ l.Food_ID) ∧
    (today < l.Expiry_Date →
      { l with Quantity := 1 } ∈ (clean_data today db).food_listings) := by
  constructor
  · intro hexp huniq m hm hid
    rcases mem_cleanedListings.mp hm with ⟨l', hl', hd', rfl⟩
    rw [fixQuantity_Food_ID] at hid
    have : l' = l := huniq l' hl' hid
    subst this
    omega
  · intro hfut
    apply mem_cleanedListings.mpr
    refine ⟨l, hl, by omega, ?_⟩
    unfold fixQuantity
    rw [if_pos hq]

/-- C5 witness: on `dbA` at day 10, the expired negative-quantity
listing `lYest` leaves no trace, and the future negative-quantity
listing `lTom` survives with Quantity 1. -/
theorem clean_order_expired_before_clamp_witness :
    (∀ m ∈ (clean_data 10 dbA).food_listings, m.Food_ID ≠ lYest.Food_ID) ∧
    ({ lTom with Quantity := 1 } ∈ (clean_data 10 dbA).food_listings) := by
  constructor
  · exact (clean_order_expired_before_clamp 10 dbA lYest (by decide) (by decide)).1
      (by decide) (by decide)
  · exact (clean_order_expired_before_clamp 10 dbA lTom (by decide) (by decide)).2
      (by decide)

/-- C9: the standalone consistency check deletes a listing whose
Expiry_Date equals the current date whenever it runs strictly after
midnight, because it compares the parsed expiry (midnight of that day)
against the current date-time; the Bulk Loader Clean stage retains that
same listing; and the check's criterion subsumes Clean's date-only
criterion. -/
theorem check_deletes_today_after_midnight (now : Nat) (db : DB) (l : FoodListing)
    (hl : l ∈ db.food_listings) (he : l.Expiry_Date = now / secondsPerDay)
    (hmid : now % secondsPerDay ≠ 0) :
    l ∉ delete_expired_food now db.food_listings ∧
    fixQuantity l ∈ (clean_data (now / secondsPerDay) db).food_listings ∧
    (∀ e : Nat, e < now / secondsPerDay → e * secondsPerDay < now) := by
  refine ⟨?_, ?_, ?_⟩
  · intro hmem
    have hpred := (List.mem_filter.mp hmem).2
    simp only [expiredByCheck, secondsPerDay, Bool.not_eq_eq_eq_not, Bool.not_true,
      decide_eq_false_iff_not] at hpred
    simp only [secondsPerDay] at he hmid
    omega
  · apply mem_cleanedListings.mpr
    exact ⟨l, hl, by omega, rfl⟩
  · intro e hlt
    simp only [secondsPerDay] at hlt ⊢
    omega

/-- C9 witness: at `now` = day 10, 01:00 (867600 seconds), the day-10
listing `lZero` of `dbA` is deleted by the check but kept by Clean. -/
theorem check_deletes_today_after_midnight_witness :
    lZero ∉ delete_expired_food 867600 dbA.food_listings ∧
    fixQuantity lZero ∈ (clean_data (867600 / secondsPerDay) dbA).food_listings ∧
    (∀ e : Nat, e < 867600 / secondsPerDay → e * secondsPerDay < 867600) :=
  check_deletes_today_after_midnight 867600 dbA lZero (by decide) (by decide) (by decide)

/-- C10 counterexample: on a store whose food_listings table is empty,
the NOT IN subquery is empty, `NULL NOT IN ()` evaluates to TRUE (not
NULL), and the NULL-Food_ID claim with a valid Receiver_ID IS deleted by
the referential cleanup. -/
theorem null_foodid_cex :
    dbNoList.claims = [cNullF] ∧ cNullF.Food_ID = none ∧
    (∃ r ∈ dbNoList.receivers, cNullF.Receiver_ID = some r.Receiver_ID) ∧
    (clean_data 10 dbNoList).claims = [] := by
  decide

/-- C10 amended: provided at least one food listing survives the
expired-row removal (the NOT IN subquery is non-empty), a claim whose
Food_ID is NULL and whose Receiver_ID is present in receivers is not
deleted by the Clean stage's referential cleanup: the NOT IN predicate
evaluates to NULL rather than TRUE for the NULL Food_ID. -/
theorem null_foodid_claim_survives (today : Nat) (db : DB) (c : Claim)
    (hc : c ∈ db.claims) (hf : c.Food_ID = none)
    (hr : ∃ rid, c.Receiver_ID = some rid ∧ rid ∈ db.receivers.map (fun r => r.Receiver_ID))
    (hne : (clean_data today db).food_listings ≠ []) :
    c ∈ (clean_data today db).claims := by
  have hinv : invalidClaim (cleanedListings today db.food_listings) db.receivers c = false := by
    rw [Bool.eq_false_iff]
    intro habs
    rcases invalidClaim_eq_true.mp habs with h1 | h2
    · rw [hf, sqlNotIn_none] at h1
      · exact Option.noConfusion h1
      · simp only [ne_eq, List.map_eq_nil_iff]
        exact hne
    · rcases hr with ⟨rid, hrid, hmem⟩
      rw [hrid, sqlNotIn_some] at h2
      simp [hmem] at h2
  exact List.mem_filter.mpr ⟨hc, by simp [hinv]⟩

/-- C10 amended, witness: the NULL-Food_ID claim of `dbA` survives Clean
at day 10, two listings remaining. -/
theorem null_foodid_claim_survives_witness :
    cNullF ∈ (clean_data 10 dbA).claims :=
  null_foodid_claim_survives 10 dbA cNullF (by decide) (by decide)
    ⟨7, rfl, by decide⟩ (by decide)

/-- C8: every execution failure is caught at the helper boundary: the
read helper returns an empty result set, the write helper returns a null
identifier, and both helpers are total on every outcome (success or
failure), so no exception propagates to the caller. -/
theorem run_helpers_catch_failures (α : Type) (msg : String) (df : List α) (rowid : Int) :
    run_query (Except.error msg : Except String (List α)) = [] ∧
    run_execute (Except.error msg) = none ∧
    run_query (Except.ok df) = df ∧
    run_execute (Except.ok rowid) = some rowid :=
  ⟨rfl, rfl, rfl, rfl⟩

/-- C7: an UPDATE (set one named field by primary key) or DELETE
targeting a key absent from the table leaves the table completely
unchanged — same rows, same values — and the write helper reports
success (a row id, not a null/error) since the statement executes
normally with zero rows affected. -/
theorem crud_missing_key_noop {α : Type} (keyOf : α → Int) (k : Int)
    (setField : α → α) (tbl : List α) (rowid : Int)
    (h : ∀ r ∈ tbl, keyOf r ≠ k) :
    updateByKey keyOf k setField tbl = tbl ∧
    deleteByKey keyOf k tbl = tbl ∧
    run_execute (Except.ok rowid) = some rowid := by
  refine ⟨?_, ?_, rfl⟩
  · have hcongr : ∀ r ∈ tbl, (if keyOf r = k then setField r else r) = id r := by
      intro r hr
      rw [if_neg (h r hr)]
      rfl
    rw [updateByKey, List.map_congr_left hcongr, List.map_id]
  · apply List.filter_eq_self.mpr
    intro a ha
    simp [h a ha]

/-- C7 witness: key 42 appears in no row of `dbA.food_listings`. -/
theorem crud_missing_key_noop_witness :
    updateByKey (fun l => l.Food_ID) 42 id dbA.food_listings = dbA.food_listings ∧
    deleteByKey (fun l => l.Food_ID) 42 dbA.food_listings = dbA.food_listings ∧
    run_execute (Except.ok 5) = some 5 :=
  crud_missing_key_noop (fun l => l.Food_ID) 42 id dbA.food_listings 5 (by decide)

/-! ## Helper lemmas: the query builder -/

theorem evalWhere_eq_true : ∀ (cs : List (Row → Option Bool)) (r : Row),
    evalWhere cs r = some true ↔ ∀ c ∈ cs, c r = some true
  | [], r => by simp [evalWhere]
  | c :: cs, r => by
    have ih := evalWhere_eq_true cs r
    simp only [evalWhere, List.foldr_cons] at ih ⊢
    rw [sqlAnd_eq_true, ih, List.forall_mem_cons]

theorem forall_mem_if_empty {g : Row → Option Bool} {f : List String} (r : Row) :
    (∀ c ∈ (if f.isEmpty then ([] : List (Row → Option Bool)) else [g]),
        c r = some true) ↔ (f = [] ∨ g r = some true) := by
  cases f with
  | nil => simp
  | cons a as => simp

theorem conditions_eval (fCity fProvider fFoodtype : List String) (r : Row) :
    (∀ c ∈ conditions fCity fProvider fFoodtype, c r = some true) ↔
      ((fCity = [] ∨ ∃ v, r.1.Location = some v ∧ v ∈ fCity) ∧
       (fProvider = [] ∨ ∃ v, (∃ p, r.2 = some p ∧ p.Name = some v) ∧ v ∈ fProvider) ∧
       (fFoodtype = [] ∨ ∃ v, r.1.Food_Type = some v ∧ v ∈ fFoodtype)) := by
  rw [conditions, List.forall_mem_append, List.forall_mem_append,
    forall_mem_if_empty, forall_mem_if_empty, forall_mem_if_empty]
  simp only [sqlIn_eq_true, Option.bind_eq_some, and_assoc]

/-- C1: a row is in the Query Builder's result set iff it is a row of
the listings-providers LEFT JOIN and, for each non-empty filter
dimension (Location, Provider name, Food_Type), the row's attribute
equals one of the selected values — OR within a dimension, AND across
dimensions; with all three dimensions empty every join row is
returned. -/
theorem query_builder_filter_exact (db : DB) (fCity fProvider fFoodtype : List String)
    (r : Row) :
    r ∈ browseFilter db fCity fProvider fFoodtype ↔
      (r ∈ leftJoinProviders db.food_listings db.providers ∧
       (fCity = [] ∨ ∃ v, r.1.Location = some v ∧ v ∈ fCity) ∧
       (fProvider = [] ∨ ∃ v, (∃ p, r.2 = some p ∧ p.Name = some v) ∧ v ∈ fProvider) ∧
       (fFoodtype = [] ∨ ∃ v, r.1.Food_Type = some v ∧ v ∈ fFoodtype)) := by
  rw [browseFilter, List.mem_mergeSort, List.mem_filter]
  simp only [beq_iff_eq]
  rw [evalWhere_eq_true, conditions_eval]

/-- C6: the Query Builder output is sorted by parsed Expiry_Date
ascending for every filter selection, is a permutation of the filtered
join (so ordering is the only postprocessing), and the sort is stable:
any correctly-ordered pair of the filtered join appears in the same
relative order in the output. -/
theorem query_builder_sorted (db : DB) (fCity fProvider fFoodtype : List String) :
    List.Sorted (fun a b : Row => a.1.Expiry_Date ≤ b.1.Expiry_Date)
      (browseFilter db fCity fProvider fFoodtype) ∧
    (browseFilter db fCity fProvider fFoodtype).Perm
      ((leftJoinProviders db.food_listings db.providers).filter
        (fun r => evalWhere (conditions fCity fProvider fFoodtype) r == some true)) ∧
    (∀ a b : Row, rowLE a b = true →
      ([a, b].Sublist ((leftJoinProviders db.food_listings db.providers).filter
        (fun r => evalWhere (conditions fCity fProvider fFoodtype) r == some true)) →
      [a, b].Sublist (browseFilter db fCity fProvider fFoodtype))) := by
  have htrans : ∀ a b c : Row, rowLE a b → rowLE b c → rowLE a c := by
    intro a b c
    simp only [rowLE, decide_eq_true_eq]
    omega
  have htotal : ∀ a b : Row, rowLE a b || rowLE b a := by
    intro a b
    simp only [rowLE, Bool.or_eq_true, decide_eq_true_eq]
    omega
  refine ⟨?_, List.mergeSort_perm _ _, ?_⟩
  · have h := List.sorted_mergeSort htrans htotal
      ((leftJoinProviders db.food_listings db.providers).filter
        (fun r => evalWhere (conditions fCity fProvider fFoodtype) r == some true))
    exact h.imp (by
      intro a b hab
      simpa [rowLE] using hab)
  · intro a b hab hsub
    exact List.pair_sublist_mergeSort htrans htotal hab hsub

/-- C6 witness: a concrete filtered query on `dbA`. -/
theorem query_builder_sorted_witness :
    List.Sorted (fun a b : Row => a.1.Expiry_Date ≤ b.1.Expiry_Date)
      (browseFilter dbA ["a"] [] []) :=
  (query_builder_sorted dbA ["a"] [] []).1

end FoodWastage
